import Mathlib

/-!
Verification development for the feedtui terminal dashboard runtime.

The visible sources of the repository are the embedding FFI header
`src/include/feedtui.h` and two example embedding programs
(`src/examples/cpp/main.cpp`, `src/examples/cpp/simple.c`).  The engine
behind the FFI surface is not part of the visible sources, so the engine
components (configuration model, widget registry, refresh scheduler,
layout engine, embedding boundary) are modelled from the specification;
every such definition carries a doc comment starting with
`Modelled from the spec:`.  Definitions taken from the visible sources
(the result-code enumeration, the example `main` functions) are embedded
directly from the code.
-/

namespace Feedtui

/-- Result codes of the embedding boundary, embedded from the
`FeedtuiResult` enum in `src/include/feedtui.h` (lines 51-66). -/
inductive FeedtuiResult where
  | SUCCESS
  | INVALID_HANDLE
  | INVALID_CONFIG_PATH
  | CONFIG_LOAD_ERROR
  | RUNTIME_ERROR
  | APP_ERROR
  | PANIC
  deriving DecidableEq, Repr

/-- Numeric value of each result code, as assigned in `feedtui.h`. -/
def FeedtuiResult.code : FeedtuiResult → Int
  | .SUCCESS => 0
  | .INVALID_HANDLE => 1
  | .INVALID_CONFIG_PATH => 2
  | .CONFIG_LOAD_ERROR => 3
  | .RUNTIME_ERROR => 4
  | .APP_ERROR => 5
  | .PANIC => 6

/-! ## Configuration model (spec section 3 and 4.1) -/

/-- Modelled from the spec: the raw position sub-structure of a widget
entry as produced by the (black-box) TOML parser; `row`/`col` are
integers that validation must check for non-negativity. -/
structure RawPosition where
  row : Int
  col : Int
  deriving DecidableEq, Repr

/-- Modelled from the spec: one raw widget entry of the configuration
tree.  Required fields (`type`, `title`, `position`, and for the
news-feed type `story_count`, `story_type`) are optional here because
validation must reject their absence.  The C field `type` is spelled
`wtype` because `type` is reserved in Lean.  A widget entry may carry a
`refresh_interval_secs` override. -/
structure RawWidget where
  wtype : Option String
  title : Option String
  position : Option RawPosition
  story_count : Option Int
  story_type : Option String
  refresh_interval_secs : Option Int
  deriving DecidableEq, Repr

/-- Modelled from the spec: the raw `general` section. -/
structure RawGeneral where
  refresh_interval_secs : Option Int
  theme : Option String
  deriving DecidableEq, Repr

/-- Modelled from the spec: the raw configuration tree delivered by the
black-box TOML parser (treated as an external collaborator). -/
structure RawConfig where
  general : RawGeneral
  widgets : List RawWidget
  deriving DecidableEq, Repr

/-- Modelled from the spec: validated general settings; the interval is
kept as an `Int` known positive after validation. -/
structure GeneralSettings where
  refresh_interval_secs : Int
  theme : String
  deriving DecidableEq, Repr

/-- Modelled from the spec: validated widget specification. -/
structure WidgetSpec where
  wtype : String
  title : String
  row : Int
  col : Int
  story_count : Int
  story_type : String
  refresh_interval_secs : Option Int
  deriving DecidableEq, Repr

/-- Modelled from the spec: the validated configuration: general
settings plus an ordered sequence of widget specifications. -/
structure Configuration where
  general : GeneralSettings
  widgets : List WidgetSpec
  deriving DecidableEq, Repr

/-- Modelled from the spec: validation errors (all of kind
"configuration error" in the boundary taxonomy of spec section 7). -/
inductive ConfigError where
  | missingField (which : String)
  | nonPositiveInterval (value : Int)
  | unknownTheme (value : String)
  | unknownWidgetType (value : String)
  | unknownStoryType (value : String)
  | badStoryCount (value : Int)
  | negativePosition (row col : Int)
  deriving DecidableEq, Repr

/-- Modelled from the spec: the widget registry knows exactly the one
illustrated widget type, the news-feed (`hackernews`) widget; the
registry maps a type tag to a factory, so membership decides whether a
type tag resolves. -/
def registryHas (tag : String) : Bool :=
  tag = "hackernews"

/-- Modelled from the spec: known theme enum values (`dark`, `light`);
unknown theme values fail validation rather than silently defaulting. -/
def knownTheme (t : String) : Bool :=
  t = "dark" ∨ t = "light"

/-- Modelled from the spec: known story-type enum values for the
news-feed widget (`top`, `new`, `best`). -/
def knownStoryType (t : String) : Bool :=
  t = "top" ∨ t = "new" ∨ t = "best"

/-- Modelled from the spec: the implementation maximum for
`story_count` (the spec names a maximum without fixing its value). -/
def maxStoryCount : Int := 50

/-- Modelled from the spec: validate one raw widget entry.  Rejects a
missing required field, an unresolved type tag, unknown enum values, a
non-positive or over-large story count, a negative position, and a
non-positive per-widget interval override. -/
def validateWidget (w : RawWidget) : Except ConfigError WidgetSpec :=
  match w.wtype with
  | none => .error (.missingField "type")
  | some t =>
    if registryHas t then
      match w.title with
      | none => .error (.missingField "title")
      | some ti =>
        match w.position with
        | none => .error (.missingField "position")
        | some p =>
          if p.row < 0 ∨ p.col < 0 then
            .error (.negativePosition p.row p.col)
          else
            match w.story_count with
            | none => .error (.missingField "story_count")
            | some sc =>
              if sc ≤ 0 ∨ maxStoryCount < sc then
                .error (.badStoryCount sc)
              else
                match w.story_type with
                | none => .error (.missingField "story_type")
                | some st =>
                  if knownStoryType st then
                    match w.refresh_interval_secs with
                    | some iv =>
                      if iv ≤ 0 then .error (.nonPositiveInterval iv)
                      else .ok ⟨t, ti, p.row, p.col, sc, st, some iv⟩
                    | none => .ok ⟨t, ti, p.row, p.col, sc, st, none⟩
                  else .error (.unknownStoryType st)
    else .error (.unknownWidgetType t)

/-- Modelled from the spec: validate the `general` section: both fields
required, interval must be positive, theme must be a known enum value. -/
def validateGeneral (g : RawGeneral) : Except ConfigError GeneralSettings :=
  match g.refresh_interval_secs with
  | none => .error (.missingField "refresh_interval_secs")
  | some iv =>
    if iv ≤ 0 then .error (.nonPositiveInterval iv)
    else
      match g.theme with
      | none => .error (.missingField "theme")
      | some th =>
        if knownTheme th then .ok ⟨iv, th⟩
        else .error (.unknownTheme th)

/-- Modelled from the spec: validate every widget entry in order,
failing on the first invalid one (no widget is silently skipped). -/
def validateWidgets : List RawWidget → Except ConfigError (List WidgetSpec)
  | [] => .ok []
  | w :: ws =>
    match validateWidget w with
    | .error e => .error e
    | .ok s =>
      match validateWidgets ws with
      | .error e => .error e
      | .ok ss => .ok (s :: ss)

/-- Modelled from the spec: `validate(raw_tree) → Configuration |
ConfigError`, a pure transform; duplicate positions are not rejected. -/
def validate (raw : RawConfig) : Except ConfigError Configuration :=
  match validateGeneral raw.general with
  | .error e => .error e
  | .ok g =>
    match validateWidgets raw.widgets with
    | .error e => .error e
    | .ok ws => .ok ⟨g, ws⟩

/-! ## Widget instances and the refresh scheduler (spec sections 3, 4.2, 4.3) -/

/-- Modelled from the spec: the stored fetch result of a widget
instance: `Empty`, `Data(payload)`, or `Error(message)`. -/
inductive FetchState where
  | empty
  | data (payload : List String)
  | error (message : String)
  deriving DecidableEq, Repr

/-- Modelled from the spec: a runtime widget instance created from a
`WidgetSpec`; holds its stored fetch result and its effective refresh
interval. -/
structure WidgetInstance where
  spec : WidgetSpec
  last_fetch_result : FetchState
  interval : Int
  deriving DecidableEq, Repr

/-- Modelled from the spec: the registry factory constructing a widget
instance from a validated spec; the instance starts `Empty` and a spec
with no `refresh_interval_secs` override inherits
`GeneralSettings.refresh_interval_secs`. -/
def mkInstance (g : GeneralSettings) (s : WidgetSpec) : WidgetInstance :=
  ⟨s, .empty, s.refresh_interval_secs.getD g.refresh_interval_secs⟩

/-- Modelled from the spec: a configuration with N widget specs
produces exactly N widget instances, in the same order. -/
def mkInstances (c : Configuration) : List WidgetInstance :=
  c.widgets.map (mkInstance c.general)

/-- Modelled from the spec: the outcome a fetch collaborator hands back
for one fetch: typed story records or a failure. -/
inductive FetchOutcome where
  | ok (payload : List String)
  | fail (message : String)
  deriving DecidableEq, Repr

/-- Modelled from the spec: applying a completed fetch outcome to a
widget instance: success stores the payload (replacing any previous
error state); failure stores `Error(message)`, discarding previous
data.  A fetch failure never escalates past this point. -/
def applyFetchResult (w : WidgetInstance) (r : FetchOutcome) : WidgetInstance :=
  match r with
  | .ok payload => { w with last_fetch_result := .data payload }
  | .fail msg => { w with last_fetch_result := .error msg }

/-- Modelled from the spec: apply to each widget, starting at widget
index `n`, the outcome its own fetch collaborator produced. -/
def applyOutcomes (fetchers : Nat → FetchOutcome) :
    Nat → List WidgetInstance → List WidgetInstance
  | _, [] => []
  | n, w :: ws => applyFetchResult w (fetchers n) :: applyOutcomes fetchers (n + 1) ws

/-- Modelled from the spec: one full refresh cycle of the scheduler:
the fetch of every widget completes with the outcome its own fetch
collaborator produces (indexed by widget position in the sequence), and
the outcome is applied to that widget alone. -/
def refreshCycle (fetchers : Nat → FetchOutcome) (ws : List WidgetInstance) :
    List WidgetInstance :=
  applyOutcomes fetchers 0 ws

/-- Modelled from the spec: K refresh cycles of the scheduler, where
`fetchers k i` is the outcome that the collaborator of widget `i` produces in
cycle `k` (cycles counted from 0). -/
def runCycles (fetchers : Nat → Nat → FetchOutcome) :
    Nat → List WidgetInstance → List WidgetInstance
  | 0, ws => ws
  | k + 1, ws => refreshCycle (fetchers k) (runCycles fetchers k ws)

/-! ## Layout engine (spec section 4.4) -/

/-- Modelled from the spec: a rectangular screen region assigned to one
widget for a render tick. -/
structure Region where
  x : Nat
  y : Nat
  width : Nat
  height : Nat
  deriving DecidableEq, Repr

/-- Modelled from the spec: grid extent inferred from the maximum
row/col index used by the widget sequence (one row/col when empty). -/
def gridExtent (ws : List WidgetSpec) : Nat × Nat :=
  (ws.foldl (fun m s => max m (s.row.toNat + 1)) 1,
   ws.foldl (fun m s => max m (s.col.toNat + 1)) 1)

/-- Modelled from the spec: the region of one widget on a
`rows × cols` grid over a `termW × termH` terminal: the terminal is
divided into that many rows/columns, positions beyond the inferred grid
are clamped to the last valid cell, and regions are clamped to terminal
bounds. -/
def cellRegion (rows cols termW termH : Nat) (s : WidgetSpec) : Region :=
  let cw := termW / cols
  let ch := termH / rows
  let r := min s.row.toNat (rows - 1)
  let c := min s.col.toNat (cols - 1)
  ⟨min (c * cw) termW, min (r * ch) termH, cw, ch⟩

/-- Modelled from the spec: `resolve(widgets, terminal_dimensions)`:
every widget, in declaration order, is assigned a region; widgets
sharing a position both keep their region (the engine never drops a
widget for sharing a cell), and the render loop draws the resulting
list in order, so a later-declared widget is drawn last / on top. -/
def resolve (ws : List WidgetSpec) (termW termH : Nat) : List Region :=
  let e := gridExtent ws
  ws.map (cellRegion e.1 e.2 termW termH)

/-- Pair each element of a list with its index, counting from `n`. -/
def indexFrom : Nat → List Region → List (Nat × Region)
  | _, [] => []
  | n, r :: rs => (n, r) :: indexFrom (n + 1) rs

/-- Modelled from the spec: the draw order of one render tick: the
widget indices paired with their regions, drawn first to last in
declaration order. -/
def drawOrder (ws : List WidgetSpec) (termW termH : Nat) : List (Nat × Region) :=
  indexFrom 0 (resolve ws termW termH)

/-! ## Embedding boundary (spec sections 4.6, 6, 7) -/

/-- Modelled from the spec: the engine instance owned by a live handle:
its immutable configuration, its widget instances, and the handle-owned
most-recent error message. -/
structure Engine where
  config : Configuration
  widgets : List WidgetInstance
  last_error : Option String
  deriving DecidableEq, Repr

/-- Modelled from the spec: the internal outcome of one engine
execution inside `run`, in the internal result vocabulary of the engine: clean
success, a runtime (startup) error, an application error, or an
internal fault that would otherwise crash the host (raised anywhere,
including deep in a collaborator). -/
inductive ExecOutcome where
  | success
  | runtimeError (message : String)
  | appError (message : String)
  | fault (message : String)
  deriving DecidableEq, Repr

/-- Modelled from the spec: the fault-isolation boundary wrapped around
the whole run-loop execution: it translates the internal
vocabulary into a result code, traps any internal fault and converts it
into `PANIC` plus a captured message, and records the message of every
non-success outcome in the error slot of the handle (overwritten by each
call that produces a new error). -/
def runBoundary (e : Engine) (exec : ExecOutcome) : FeedtuiResult × Engine :=
  match exec with
  | .success => (.SUCCESS, e)
  | .runtimeError m => (.RUNTIME_ERROR, { e with last_error := some m })
  | .appError m => (.APP_ERROR, { e with last_error := some m })
  | .fault m => (.PANIC, { e with last_error := some m })

/-- Modelled from the spec: the process-wide collection of live
handles, mapping a handle identity to its engine; the handle argument of a foreign caller is `Option Nat` (`none` is the null pointer). -/
abbrev HandleTable : Type := Nat → Option Engine

/-- Modelled from the spec: `init_with_config`: load + validate +
construct-widgets, returning either a live handle (an engine whose
widgets are instantiated from the validated configuration, no error
recorded) or no handle with a boundary-level configuration error
recorded separately, since no handle exists to hold it. -/
def feedtui_init_with_config (raw : RawConfig) :
    Option Engine × Option ConfigError :=
  match validate raw with
  | .ok c => (some ⟨c, mkInstances c, none⟩, none)
  | .error e => (none, some e)

/-- Modelled from the spec: `run(handle)`: a null or unknown handle
yields `INVALID_HANDLE` and touches nothing; a valid handle runs the
engine behind the fault-isolation boundary and stores the updated
engine back under the same identity.  `exec` abstracts what the render
loop and its collaborators do during this call. -/
def feedtui_run (h : Option Nat) (t : HandleTable) (exec : ExecOutcome) :
    FeedtuiResult × HandleTable :=
  match h with
  | none => (.INVALID_HANDLE, t)
  | some id =>
    match t id with
    | none => (.INVALID_HANDLE, t)
    | some e =>
      let r := runBoundary e exec
      (r.1, fun k => if k = id then some r.2 else t k)

/-- Modelled from the spec: `shutdown(handle)`: frees all resources of
the handle (it no longer exists afterwards); a null handle is a no-op. -/
def feedtui_shutdown (h : Option Nat) (t : HandleTable) : HandleTable :=
  match h with
  | none => t
  | some id => fun k => if k = id then none else t k

/-- Modelled from the spec: `get_last_error(handle)`: the message held
by the handle, or null when no error has occurred on the handle or the
handle is invalid (null or already shut down). -/
def feedtui_get_last_error (h : Option Nat) (t : HandleTable) : Option String :=
  match h with
  | none => none
  | some id =>
    match t id with
    | none => none
    | some e => e.last_error

/-- Modelled from the spec: a sequence of `run` calls on the same
handle, one per execution outcome in the list (the trace of FFI calls
made on the handle). -/
def runTrace (id : Nat) (t : HandleTable) : List ExecOutcome → HandleTable
  | [] => t
  | x :: xs => runTrace id (feedtui_run (some id) t x).2 xs

/-! ## Example embedding programs (embedded from the source) -/

/-- Outcome of the command-line loop of `main` in
`src/examples/cpp/main.cpp`: either an early `return` with an exit code
(help, version, unknown option) or proceeding to initialization with an
optional config path. -/
inductive CliOutcome where
  | exitCode (c : Int)
  | proceed (configPath : Option String)
  deriving DecidableEq, Repr

/-- The argument loop of `main` in `src/examples/cpp/main.cpp` (lines
60-79): `-h`/`--help` prints usage and returns 0; `-v`/`--version`
prints versions and returns 0; `-c`/`--config` followed by a value
records the path and continues; anything else (including a trailing
`-c` with no value) returns 1. -/
def parseCppArgs : List String → Option String → CliOutcome
  | [], cfg => .proceed cfg
  | a :: rest, _cfg =>
    if a = "-h" ∨ a = "--help" then .exitCode 0
    else if a = "-v" ∨ a = "--version" then .exitCode 0
    else if a = "-c" ∨ a = "--config" then
      match rest with
      | p :: rest2 => parseCppArgs rest2 (some p)
      | [] => .exitCode 1
    else .exitCode 1

/-- The control flow of `main` in `src/examples/cpp/main.cpp` (lines
58-123) after abstracting the collaborators: `initOk` is whether the
chosen `feedtui_init`/`feedtui_init_with_config` call returned a
handle, and `runResult` is what `feedtui_run` returns when invoked.
The returned pair is the process exit code and whether `feedtui_run`
was invoked in this execution. -/
def cppMain (args : List String) (initOk : Bool) (runResult : Int) :
    Int × Bool :=
  match parseCppArgs args none with
  | .exitCode c => (c, false)
  | .proceed _ => if initOk then (runResult, true) else (1, false)

/-- The control flow of `main` in `src/examples/cpp/simple.c` (lines
16-41): if `feedtui_init(NULL)` returns no handle, exit 1; otherwise
run, report any error, shut down, and return the run result. -/
def simpleMain (initOk : Bool) (runResult : Int) : Int × Bool :=
  if initOk then (runResult, true) else (1, false)

/-! ## Concrete instances used to exercise the model on closed inputs -/

/-- A concrete validated configuration (the default configuration of
the examples: one news-feed widget, 60s interval, dark theme). -/
def demoConfig : Configuration :=
  ⟨⟨60, "dark"⟩, [⟨"hackernews", "Hacker News", 0, 0, 15, "top", none⟩]⟩

/-- A concrete live engine built from `demoConfig` with no recorded
error. -/
def demoEngine : Engine :=
  ⟨demoConfig, mkInstances demoConfig, none⟩

/-- A concrete handle table holding `demoEngine` at handle identity 0
and nothing else. -/
def demoTable : HandleTable :=
  fun k => if k = 0 then some demoEngine else none

/-- A concrete raw configuration whose general interval is 0. -/
def demoRawZeroInterval : RawConfig :=
  ⟨⟨some 0, some "dark"⟩, []⟩

/-- A concrete raw widget entry of the unregistered type `weather`. -/
def demoWeatherWidget : RawWidget :=
  ⟨some "weather", some "Weather", some ⟨0, 0⟩, some 5, some "top", none⟩

/-- A concrete raw configuration containing `demoWeatherWidget`. -/
def demoRawWeather : RawConfig :=
  ⟨⟨some 60, some "dark"⟩, [demoWeatherWidget]⟩

/-- Two concrete widget instances used to exercise the scheduler. -/
def demoInstances : List WidgetInstance :=
  [mkInstance ⟨60, "dark"⟩ ⟨"hackernews", "A", 0, 0, 5, "top", none⟩,
   mkInstance ⟨60, "dark"⟩ ⟨"hackernews", "B", 1, 0, 5, "new", none⟩]

/-- A per-cycle fetcher family whose widget 0 always fails. -/
def demoFailingFetchers : Nat → Nat → FetchOutcome :=
  fun _ j => if j = 0 then .fail "timeout" else .ok ["story"]

/-- A per-cycle fetcher family agreeing with `demoFailingFetchers` away
from widget 0 but succeeding at widget 0. -/
def demoHealthyFetchers : Nat → Nat → FetchOutcome :=
  fun _ j => if j = 0 then .ok ["other"] else .ok ["story"]

/-- Two concrete widget specs sharing position (0,0). -/
def demoOverlapSpecs : List WidgetSpec :=
  [⟨"hackernews", "first", 0, 0, 5, "top", none⟩,
   ⟨"hackernews", "second", 0, 0, 5, "new", none⟩]

/-! ## Helper lemmas -/

theorem applyOutcomes_length (f : Nat → FetchOutcome) :
    ∀ (n : Nat) (ws : List WidgetInstance),
    (applyOutcomes f n ws).length = ws.length
  | _, [] => rfl
  | n, _ :: ws => by
    simp [applyOutcomes, applyOutcomes_length f (n + 1) ws]

theorem applyOutcomes_getElem (f : Nat → FetchOutcome) :
    ∀ (ws : List WidgetInstance) (n j : Nat),
    (applyOutcomes f n ws)[j]? =
      (ws[j]?).map fun w => applyFetchResult w (f (n + j))
  | [], _, _ => by simp [applyOutcomes]
  | w :: ws, n, 0 => by simp [applyOutcomes]
  | w :: ws, n, j + 1 => by
    have ih := applyOutcomes_getElem f ws (n + 1) j
    simp only [applyOutcomes, List.getElem?_cons_succ, ih]
    have : n + 1 + j = n + (j + 1) := by omega
    rw [this]

theorem runCycles_length (f : Nat → Nat → FetchOutcome) :
    ∀ (K : Nat) (ws : List WidgetInstance),
    (runCycles f K ws).length = ws.length
  | 0, _ => rfl
  | K + 1, ws => by
    simp [runCycles, refreshCycle, applyOutcomes_length, runCycles_length f K ws]

theorem runCycles_agree (f g : Nat → Nat → FetchOutcome) (i : Nat)
    (hfg : ∀ k j, j ≠ i → f k j = g k j) :
    ∀ (K : Nat) (ws : List WidgetInstance) (j : Nat), j ≠ i →
    (runCycles f K ws)[j]? = (runCycles g K ws)[j]?
  | 0, _, _, _ => rfl
  | K + 1, ws, j, hj => by
    have ih := runCycles_agree f g i hfg K ws j hj
    simp [runCycles, refreshCycle, applyOutcomes_getElem, ih, hfg K j hj]

theorem indexFrom_getElem :
    ∀ (rs : List Region) (n j : Nat),
    (indexFrom n rs)[j]? = (rs[j]?).map fun r => (n + j, r)
  | [], _, _ => by simp [indexFrom]
  | r :: rs, n, 0 => by simp [indexFrom]
  | r :: rs, n, j + 1 => by
    have ih := indexFrom_getElem rs (n + 1) j
    simp only [indexFrom, List.getElem?_cons_succ, ih]
    have : n + 1 + j = n + (j + 1) := by omega
    rw [this]

theorem validateWidgets_ok_registered :
    ∀ (ws : List RawWidget) (ss : List WidgetSpec),
    validateWidgets ws = .ok ss →
    ∀ w ∈ ws, ∀ t, w.wtype = some t → registryHas t = true
  | [], _, _, w, hw, _, _ => absurd hw (List.not_mem_nil w)
  | w0 :: ws, ss, hok, w, hw, t, hwt => by
    rcases List.mem_cons.mp hw with hweq | hwtail
    · subst hweq
      by_cases hr : registryHas t = true
      · exact hr
      · exfalso
        simp only [validateWidgets, validateWidget, hwt] at hok
        rw [Bool.not_eq_true] at hr
        rw [hr] at hok
        simp at hok
    · cases hvw : validateWidget w0 with
      | error e =>
        exfalso
        simp [validateWidgets, hvw] at hok
      | ok s =>
        cases hvs : validateWidgets ws with
        | error e =>
          exfalso
          simp [validateWidgets, hvw, hvs] at hok
        | ok ss2 =>
          exact validateWidgets_ok_registered ws ss2 hvs w hwtail t hwt

theorem validate_ok_widgets (raw : RawConfig) (c : Configuration)
    (h : validate raw = .ok c) : validateWidgets raw.widgets = .ok c.widgets := by
  unfold validate at h
  cases hg : validateGeneral raw.general with
  | error e => rw [hg] at h; simp at h
  | ok g =>
    rw [hg] at h
    cases hw : validateWidgets raw.widgets with
    | error e => rw [hw] at h; simp at h
    | ok ss =>
      rw [hw] at h
      simp only [Except.ok.injEq] at h
      rw [← h]

/-! ## Claim theorems -/

/-- C1: an internal fault raised while a valid handle is inside `run`
(wherever it originates, including deep in a collaborator) does not
unwind past the embedding boundary: `run` returns the dedicated
trapped-fault result code `PANIC` (numeric value 6) and the captured
message is retrievable from the handle afterwards. -/
theorem run_traps_fault_as_panic
    (id : Nat) (t : HandleTable) (e : Engine) (msg : String)
    (h : t id = some e) :
    (feedtui_run (some id) t (.fault msg)).1 = FeedtuiResult.PANIC ∧
    (feedtui_run (some id) t (.fault msg)).1.code = 6 ∧
    feedtui_get_last_error (some id) (feedtui_run (some id) t (.fault msg)).2 =
      some msg := by
  simp [feedtui_run, h, runBoundary, feedtui_get_last_error, FeedtuiResult.code]

/-- Witness for C1: the trapped-fault theorem applied to the concrete
handle table `demoTable` at handle 0 with fault message `boom`. -/
theorem run_traps_fault_as_panic_witness :
    demoTable 0 = some demoEngine ∧
    ((feedtui_run (some 0) demoTable (.fault "boom")).1 = FeedtuiResult.PANIC ∧
     (feedtui_run (some 0) demoTable (.fault "boom")).1.code = 6 ∧
     feedtui_get_last_error (some 0)
       (feedtui_run (some 0) demoTable (.fault "boom")).2 = some "boom") :=
  ⟨rfl, run_traps_fault_as_panic 0 demoTable demoEngine "boom" rfl⟩

/-- C2: `shutdown` is idempotent — a second `shutdown` on the same
handle leaves the handle table exactly as the first left it — and
`shutdown` on a null handle is a no-op. -/
theorem shutdown_idempotent_null_noop :
    (∀ (h : Option Nat) (t : HandleTable),
      feedtui_shutdown h (feedtui_shutdown h t) = feedtui_shutdown h t) ∧
    (∀ t : HandleTable, feedtui_shutdown none t = t) := by
  constructor
  · intro h t
    cases h with
    | none => rfl
    | some id =>
      funext k
      by_cases hk : k = id <;> simp [feedtui_shutdown, hk]
  · intro t
    rfl

/-- C4: a configuration whose `general.refresh_interval_secs` is zero
or negative is rejected by validation: `init_with_config` returns no
handle and records the boundary-level configuration error (the
non-positive-interval rejection). -/
theorem zero_interval_init_fails
    (raw : RawConfig) (iv : Int)
    (h1 : raw.general.refresh_interval_secs = some iv) (h2 : iv ≤ 0) :
    (feedtui_init_with_config raw).1 = none ∧
    (feedtui_init_with_config raw).2 = some (ConfigError.nonPositiveInterval iv) := by
  have hg : validateGeneral raw.general =
      .error (.nonPositiveInterval iv) := by
    unfold validateGeneral
    rw [h1]
    simp [h2]
  unfold feedtui_init_with_config validate
  rw [hg]
  exact ⟨rfl, rfl⟩

/-- Witness for C4: the rejection theorem applied to the concrete raw
configuration with interval 0. -/
theorem zero_interval_init_fails_witness :
    demoRawZeroInterval.general.refresh_interval_secs = some 0 ∧
    (0 : Int) ≤ 0 ∧
    ((feedtui_init_with_config demoRawZeroInterval).1 = none ∧
     (feedtui_init_with_config demoRawZeroInterval).2 =
       some (ConfigError.nonPositiveInterval 0)) :=
  ⟨rfl, by decide, zero_interval_init_fails demoRawZeroInterval 0 rfl (by decide)⟩

/-- C6: a widget spec that declares no `refresh_interval_secs`
override yields, through the registry factory, a widget instance whose
effective refresh interval equals `general.refresh_interval_secs`. -/
theorem missing_override_inherits_interval
    (g : GeneralSettings) (s : WidgetSpec)
    (h : s.refresh_interval_secs = none) :
    (mkInstance g s).interval = g.refresh_interval_secs := by
  simp [mkInstance, h]

/-- Witness for C6: the inheritance theorem applied to a concrete
general section with interval 60 and a concrete override-free spec. -/
theorem missing_override_inherits_interval_witness :
    (WidgetSpec.mk "hackernews" "HN" 0 0 15 "top" none).refresh_interval_secs
      = none ∧
    (mkInstance ⟨60, "dark"⟩
      (WidgetSpec.mk "hackernews" "HN" 0 0 15 "top" none)).interval = 60 :=
  ⟨rfl, missing_override_inherits_interval ⟨60, "dark"⟩
    (WidgetSpec.mk "hackernews" "HN" 0 0 15 "top" none) rfl⟩

/-- C9: in both example embedding programs, every execution in which
`feedtui_run` is invoked ends with a process exit code equal to the
result code `feedtui_run` returned. -/
theorem exit_code_equals_run_result :
    (∀ (args : List String) (initOk : Bool) (r : Int),
      (cppMain args initOk r).2 = true → (cppMain args initOk r).1 = r) ∧
    (∀ (initOk : Bool) (r : Int),
      (simpleMain initOk r).2 = true → (simpleMain initOk r).1 = r) := by
  constructor
  · intro args initOk r h
    cases hp : parseCppArgs args none with
    | exitCode c => simp [cppMain, hp] at h
    | proceed cfg =>
      simp only [cppMain, hp] at h ⊢
      cases initOk with
      | true => simp
      | false => simp at h
  · intro initOk r h
    unfold simpleMain at h ⊢
    cases initOk with
    | true => rfl
    | false => simp at h

/-- Witness for C9: the exit-code theorem applied to a concrete
execution of each example (`main.cpp` run with a config path argument,
`simple.c` run directly), both with a successful init and a run result
of 5. -/
theorem exit_code_equals_run_result_witness :
    ((cppMain ["-c", "cfg.toml"] true 5).2 = true ∧
     (cppMain ["-c", "cfg.toml"] true 5).1 = 5) ∧
    ((simpleMain true 5).2 = true ∧ (simpleMain true 5).1 = 5) :=
  ⟨⟨rfl, exit_code_equals_run_result.1 ["-c", "cfg.toml"] true 5 rfl⟩,
   ⟨rfl, exit_code_equals_run_result.2 true 5 rfl⟩⟩

/-- C10: `run` on a null handle returns `INVALID_HANDLE` (numeric
value 1) and leaves the handle table untouched — it neither enters the
render loop nor mutates any state, whatever the engine execution would
have been. -/
theorem run_null_handle_invalid :
    (∀ (t : HandleTable) (exec : ExecOutcome),
      feedtui_run none t exec = (FeedtuiResult.INVALID_HANDLE, t)) ∧
    FeedtuiResult.INVALID_HANDLE.code = 1 :=
  ⟨fun _ _ => rfl, rfl⟩

/-- C5: a configuration containing a widget whose type tag does not
resolve in the registry fails initialization as a whole:
`init_with_config` returns no handle (so no engine with the unknown
widget silently skipped is ever constructed) and a configuration error
is recorded; validation is total, so nothing crashes. -/
theorem unknown_widget_type_init_fails
    (raw : RawConfig) (w : RawWidget) (t : String)
    (hw : w ∈ raw.widgets) (ht : w.wtype = some t)
    (hr : registryHas t = false) :
    (feedtui_init_with_config raw).1 = none ∧
    ∃ e, (feedtui_init_with_config raw).2 = some e := by
  cases hval : validate raw with
  | ok c =>
    exfalso
    have hreg := validateWidgets_ok_registered raw.widgets c.widgets
      (validate_ok_widgets raw c hval) w hw t ht
    rw [hr] at hreg
    exact Bool.false_ne_true hreg
  | error e =>
    simp [feedtui_init_with_config, hval]

/-- Witness for C5: the rejection theorem applied to the concrete
configuration containing a widget of the unregistered type `weather`. -/
theorem unknown_widget_type_init_fails_witness :
    demoWeatherWidget ∈ demoRawWeather.widgets ∧
    demoWeatherWidget.wtype = some "weather" ∧
    registryHas "weather" = false ∧
    ((feedtui_init_with_config demoRawWeather).1 = none ∧
     ∃ e, (feedtui_init_with_config demoRawWeather).2 = some e) :=
  ⟨by simp [demoRawWeather], rfl, by decide,
   unknown_widget_type_init_fails demoRawWeather demoWeatherWidget "weather"
     (by simp [demoRawWeather]) rfl (by decide)⟩

/-- C7: when two widgets are declared at the same grid position, the
layout engine still assigns every widget a region (the resolved list
has one region per declared widget, so neither is dropped), and in the
draw order — drawn first to last — the earlier-declared widget sits at
its declaration index `i` and the later-declared one at `j > i`, so
the later-declared widget is drawn last / on top. -/
theorem overlapping_widgets_both_drawn
    (ws : List WidgetSpec) (W H i j : Nat)
    (wi wj : WidgetSpec)
    (hij : i < j) (hj : j < ws.length)
    (hwi : ws[i]? = some wi) (hwj : ws[j]? = some wj)
    (hrow : wi.row = wj.row) (hcol : wi.col = wj.col) :
    (resolve ws W H).length = ws.length ∧
    (∃ ri, (drawOrder ws W H)[i]? = some (i, ri)) ∧
    (∃ rj, (drawOrder ws W H)[j]? = some (j, rj)) := by
  refine ⟨by simp [resolve], ?_, ?_⟩
  · refine ⟨cellRegion (gridExtent ws).1 (gridExtent ws).2 W H wi, ?_⟩
    rw [drawOrder, indexFrom_getElem]
    simp [resolve, hwi]
  · refine ⟨cellRegion (gridExtent ws).1 (gridExtent ws).2 W H wj, ?_⟩
    rw [drawOrder, indexFrom_getElem]
    simp [resolve, hwj]

/-- Witness for C7: the overlap theorem applied to the two concrete
specs of `demoOverlapSpecs`, both declared at position (0,0), on an
80 by 24 terminal. -/
theorem overlapping_widgets_both_drawn_witness :
    (0 : Nat) < 1 ∧ 1 < demoOverlapSpecs.length ∧
    demoOverlapSpecs[0]? = some ⟨"hackernews", "first", 0, 0, 5, "top", none⟩ ∧
    demoOverlapSpecs[1]? = some ⟨"hackernews", "second", 0, 0, 5, "new", none⟩ ∧
    ((resolve demoOverlapSpecs 80 24).length = demoOverlapSpecs.length ∧
     (∃ ri, (drawOrder demoOverlapSpecs 80 24)[0]? = some (0, ri)) ∧
     (∃ rj, (drawOrder demoOverlapSpecs 80 24)[1]? = some (1, rj))) :=
  ⟨by decide, by decide, rfl, rfl,
   overlapping_widgets_both_drawn demoOverlapSpecs 80 24 0 1
     ⟨"hackernews", "first", 0, 0, 5, "top", none⟩
     ⟨"hackernews", "second", 0, 0, 5, "new", none⟩
     (by decide) (by decide) rfl rfl rfl rfl⟩

/-- C3: a widget whose fetch collaborator always fails never crashes
the run loop (the scheduler evolution is total and preserves the
widget count), after K (at least one) refresh cycles that widget is in
an error state, and the stored data of every other widget is exactly
what it would have been had the failing widget behaved otherwise —
fetch failures are local and never propagate. -/
theorem failing_fetcher_is_local
    (ws : List WidgetInstance) (i K : Nat)
    (fetchers fetchers2 : Nat → Nat → FetchOutcome)
    (hws : 2 ≤ ws.length) (hi : i < ws.length) (hK : 0 < K)
    (hfail : ∀ k, ∃ msg, fetchers k i = FetchOutcome.fail msg)
    (hagree : ∀ k j, j ≠ i → fetchers k j = fetchers2 k j) :
    (runCycles fetchers K ws).length = ws.length ∧
    (∃ w msg, (runCycles fetchers K ws)[i]? = some w ∧
       w.last_fetch_result = FetchState.error msg) ∧
    (∀ j, j ≠ i → (runCycles fetchers K ws)[j]? =
       (runCycles fetchers2 K ws)[j]?) := by
  refine ⟨runCycles_length fetchers K ws, ?_,
    fun j hj => runCycles_agree fetchers fetchers2 i hagree K ws j hj⟩
  obtain ⟨K0, rfl⟩ : ∃ K0, K = K0 + 1 := ⟨K - 1, by omega⟩
  obtain ⟨msg, hmsg⟩ := hfail K0
  have hlen : i < (runCycles fetchers K0 ws).length := by
    rw [runCycles_length]; exact hi
  obtain ⟨w0, hw0⟩ : ∃ w0, (runCycles fetchers K0 ws)[i]? = some w0 :=
    ⟨(runCycles fetchers K0 ws)[i], List.getElem?_eq_getElem hlen⟩
  refine ⟨applyFetchResult w0 (fetchers K0 i), msg, ?_, ?_⟩
  · simp only [runCycles, refreshCycle]
    rw [applyOutcomes_getElem, hw0]
    simp
  · rw [hmsg]
    rfl

/-- Witness for C3: the locality theorem applied to the two concrete
widget instances of `demoInstances` with the always-failing fetcher
family at widget 0, compared against the healthy family, after one
cycle. -/
theorem failing_fetcher_is_local_witness :
    2 ≤ demoInstances.length ∧
    (∀ k, ∃ msg, demoFailingFetchers k 0 = FetchOutcome.fail msg) ∧
    ((runCycles demoFailingFetchers 1 demoInstances).length =
       demoInstances.length ∧
     (∃ w msg, (runCycles demoFailingFetchers 1 demoInstances)[0]? = some w ∧
        w.last_fetch_result = FetchState.error msg) ∧
     (∀ j, j ≠ 0 → (runCycles demoFailingFetchers 1 demoInstances)[j]? =
        (runCycles demoHealthyFetchers 1 demoInstances)[j]?)) :=
  ⟨by decide, fun k => ⟨"timeout", rfl⟩,
   failing_fetcher_is_local demoInstances 0 1 demoFailingFetchers
     demoHealthyFetchers (by decide) (by decide) (by decide)
     (fun k => ⟨"timeout", rfl⟩)
     (fun k j hj => by simp [demoFailingFetchers, demoHealthyFetchers, hj])⟩

theorem runTrace_last_error (id : Nat) :
    ∀ (tr : List ExecOutcome) (t : HandleTable) (e : Engine), t id = some e →
    ∃ e2, runTrace id t tr id = some e2 ∧
      (e2.last_error = none ↔
        (e.last_error = none ∧ ∀ x ∈ tr, x = ExecOutcome.success))
  | [], t, e, h => ⟨e, by simp [runTrace, h], by simp⟩
  | x :: xs, t, e, h => by
    have hstep : (feedtui_run (some id) t x).2 id = some (runBoundary e x).2 := by
      simp [feedtui_run, h]
    obtain ⟨e2, he2, hiff⟩ := runTrace_last_error id xs
      (feedtui_run (some id) t x).2 (runBoundary e x).2 hstep
    refine ⟨e2, ?_, ?_⟩
    · simpa [runTrace] using he2
    · rw [hiff]
      cases x <;> simp [runBoundary]

/-- C8: the last-error contract of the boundary: a `run` call on a
valid handle that returns a non-success code leaves a retrievable
message on the handle; starting from a handle with no recorded error,
`get_last_error` is null after a sequence of calls exactly when none of
them produced an error; `get_last_error` is null on a null handle and
on an unknown (already freed) handle; and after `shutdown` the message
of a handle is no longer retrievable (its storage lives and dies with
the handle). -/
theorem last_error_contract :
    (∀ (id : Nat) (t : HandleTable) (e : Engine) (exec : ExecOutcome),
      t id = some e →
      (feedtui_run (some id) t exec).1 ≠ FeedtuiResult.SUCCESS →
      ∃ msg, feedtui_get_last_error (some id) (feedtui_run (some id) t exec).2 =
        some msg) ∧
    (∀ (id : Nat) (t : HandleTable) (e : Engine) (tr : List ExecOutcome),
      t id = some e → e.last_error = none →
      (feedtui_get_last_error (some id) (runTrace id t tr) = none ↔
        ∀ x ∈ tr, x = ExecOutcome.success)) ∧
    (∀ t : HandleTable, feedtui_get_last_error none t = none) ∧
    (∀ (id : Nat) (t : HandleTable), t id = none →
      feedtui_get_last_error (some id) t = none) ∧
    (∀ (id : Nat) (t : HandleTable),
      feedtui_get_last_error (some id) (feedtui_shutdown (some id) t) = none) := by
  refine ⟨?_, ?_, fun t => rfl, ?_, ?_⟩
  · intro id t e exec h hne
    cases exec with
    | success => exact absurd (by simp [feedtui_run, h, runBoundary]) hne
    | runtimeError m =>
      exact ⟨m, by simp [feedtui_run, h, runBoundary, feedtui_get_last_error]⟩
    | appError m =>
      exact ⟨m, by simp [feedtui_run, h, runBoundary, feedtui_get_last_error]⟩
    | fault m =>
      exact ⟨m, by simp [feedtui_run, h, runBoundary, feedtui_get_last_error]⟩
  · intro id t e tr h he
    obtain ⟨e2, he2, hiff⟩ := runTrace_last_error id tr t e h
    rw [feedtui_get_last_error, he2, hiff, he]
    simp
  · intro id t h
    simp [feedtui_get_last_error, h]
  · intro id t
    simp [feedtui_get_last_error, feedtui_shutdown]

/-- Witness for C8: the contract applied to the concrete handle table
`demoTable` at handle 0, with a failing application-level run and a
one-call trace containing that failure. -/
theorem last_error_contract_witness :
    demoTable 0 = some demoEngine ∧
    demoEngine.last_error = none ∧
    (feedtui_run (some 0) demoTable (.appError "bad")).1 ≠ FeedtuiResult.SUCCESS ∧
    (∃ msg, feedtui_get_last_error (some 0)
       (feedtui_run (some 0) demoTable (.appError "bad")).2 = some msg) ∧
    (feedtui_get_last_error (some 0)
       (runTrace 0 demoTable [ExecOutcome.appError "bad"]) = none ↔
      ∀ x ∈ [ExecOutcome.appError "bad"], x = ExecOutcome.success) :=
  ⟨rfl, rfl, by decide,
   last_error_contract.1 0 demoTable demoEngine (.appError "bad") rfl (by decide),
   last_error_contract.2.1 0 demoTable demoEngine [ExecOutcome.appError "bad"]
     rfl rfl⟩

end Feedtui
